import Mathlib

/-!
Shallow embedding of the memory-generator HTTP backend (src/server.js).

The server keeps three pieces of mutable state:
  * an in-memory JS object mapping profile ids to loved-one profiles
    (modelled as an association list with overwrite-on-assignment),
  * uploaded photo files on disk (modelled as the list of existing paths),
  * a JSON file holding the AR session log (modelled as a list of records).

Handlers are embedded as pure functions from the request and the relevant
state to a response value and the successor state.  Non-determinism of the
outside world (clock, file-system failures, configured environment) is
passed in as explicit parameters.
-/

namespace MemGen

/-- JS truthiness of an optional string field: `undefined` and the empty
string are falsy, every other string is truthy. -/
def truthy : Option String → Bool
  | none => false
  | some s => s != ""

/-- Coerce an optional string to a string the way the handlers use it once
truthiness has been established (`undefined` never reaches this point on
the paths we model; JS `x || ""` also maps `undefined` to `""`). -/
def getStr (o : Option String) : String := o.getD ""

/-- A loved-one profile record (src/server.js lines 85-92). -/
structure LovedOne where
  id : String
  name : String
  description : String
  relationship : String
  photos : List String
  createdAt : String
  deriving Repr, DecidableEq

/-- Lookup in the JS object `lovedOnes` (property access by key). -/
def objGet : List (String × LovedOne) → String → Option LovedOne
  | [], _ => none
  | (k, v) :: rest, k' => if k = k' then some v else objGet rest k'

/-- JS `delete lovedOnes[k]`: remove the binding for `k`. -/
def objDelete (m : List (String × LovedOne)) (k : String) : List (String × LovedOne) :=
  m.filter (fun e => e.1 != k)

/-- JS `lovedOnes[k] = v`: bind `k` to `v`, overwriting any previous
binding for `k`. -/
def objSet (m : List (String × LovedOne)) (k : String) (v : LovedOne) :
    List (String × LovedOne) :=
  (k, v) :: objDelete m k

/-- The mutable state touched by the profile endpoints: the in-memory map
and the set of files existing on disk (paths relative to the server root,
as stored in `photos`). -/
structure ProfState where
  lovedOnes : List (String × LovedOne)
  disk : List String
  deriving Repr, DecidableEq

/-- `fs.existsSync` on the modelled disk. -/
def existsSync (disk : List String) (p : String) : Bool := disk.contains p

/-- `fs.unlinkSync` on the modelled disk: the file is gone afterwards. -/
def unlinkSync (disk : List String) (p : String) : List String :=
  disk.filter (fun q => q != p)

/-- Lines 138-143: for each photo path of the profile being deleted,
remove the underlying file if it exists, silently skipping missing
files. -/
def deletePhotoFiles (disk : List String) (photos : List String) : List String :=
  photos.foldl (fun d p => if existsSync d p then unlinkSync d p else d) disk

/-- Result of DELETE /api/loved-ones/:id. -/
inductive DeleteResult where
  | notFound
  | deleted
  deriving Repr, DecidableEq

/-- HTTP status of a delete response (404 or the 200 of `res.json`). -/
def deleteStatus : DeleteResult → Nat
  | .notFound => 404
  | .deleted => 200

/-- DELETE /api/loved-ones/:id (lines 130-151): 404 if the id is unknown;
otherwise delete the photo files best-effort, then drop the record. -/
def deleteLovedOne (st : ProfState) (id : String) : DeleteResult × ProfState :=
  match objGet st.lovedOnes id with
  | none => (.notFound, st)
  | some lo =>
      (.deleted,
        { lovedOnes := objDelete st.lovedOnes id,
          disk := deletePhotoFiles st.disk lo.photos })

/-- GET /api/loved-ones/:id (lines 116-127): status only. -/
def getLovedOneStatus (st : ProfState) (id : String) : Nat :=
  match objGet st.lovedOnes id with
  | none => 404
  | some _ => 200

/-- A parsed POST /api/loved-ones request after the multer upload
middleware has filtered the files: the text fields as they appear in
`req.body` and the generated filenames of the accepted uploads. -/
structure CreateReq where
  name : Option String
  description : Option String
  relationship : Option String
  files : List String
  deriving Repr, DecidableEq

/-- Result of POST /api/loved-ones. -/
inductive CreateResult where
  | validationError (msg : String)
  | created (lo : LovedOne)
  deriving Repr, DecidableEq

/-- HTTP status of a create response. -/
def createStatus : CreateResult → Nat
  | .validationError _ => 400
  | .created _ => 200

/-- The public path recorded for an uploaded file (line 83). -/
def photoPath (f : String) : String := "/uploads/" ++ f

/-- POST /api/loved-ones (lines 70-105) including the `upload.array`
middleware: multer writes every accepted upload to disk BEFORE the handler
body runs, then the handler validates the text fields and the file list
and, on success, stores a new record under an id generated from the
current time in milliseconds. -/
def postLovedOnes (st : ProfState) (req : CreateReq) (nowMs : Nat) (nowISO : String) :
    CreateResult × ProfState :=
  let disk1 := st.disk ++ req.files.map photoPath
  if !truthy req.name || !truthy req.description then
    (.validationError "Name and description are required", { st with disk := disk1 })
  else if req.files.isEmpty then
    (.validationError "At least one photo is required", { st with disk := disk1 })
  else
    let lovedOneId := toString nowMs
    let lo : LovedOne :=
      { id := lovedOneId
        name := getStr req.name
        description := getStr req.description
        relationship := getStr req.relationship
        photos := req.files.map photoPath
        createdAt := nowISO }
    (.created lo, { lovedOnes := objSet st.lovedOnes lovedOneId lo, disk := disk1 })

/-- Outcome of the two image-generation endpoints up to the point where an
outbound request to the external generation API would be issued:
`callUpstream p` means exactly one outbound request carrying final prompt
`p` is sent; every other outcome returns without any outbound call. -/
inductive GenResult where
  | badRequest (msg : String)
  | notFound
  | noApiKey
  | callUpstream (finalPrompt : String)
  deriving Repr, DecidableEq

/-- HTTP status of the immediate response; `none` when the response
depends on the upstream reply. -/
def genStatus : GenResult → Option Nat
  | .badRequest _ => some 400
  | .notFound => some 404
  | .noApiKey => some 500
  | .callUpstream _ => none

/-- Number of outbound requests issued to the external generation API. -/
def outboundCalls : GenResult → Nat
  | .callUpstream _ => 1
  | _ => 0

/-- The enriched prompt of POST /api/generate-with-loved-one (line 175). -/
def enhancedPrompt (prompt : String) (lo : LovedOne) : String :=
  prompt ++ ". The scene includes " ++ lo.name ++ ", " ++ lo.description ++ ". " ++
    (if lo.relationship ≠ "" then "They were my " ++ lo.relationship ++ "." else "") ++
    " Create this as a vintage dreamlike polaroid photograph with surreal, ethereal qualities, soft focus, nostalgic muted tones, and a touch of the uncanny."

/-- The fixed stylistic suffix shared by the prompt templates. -/
def fixedSuffix : String :=
  "vintage dreamlike polaroid photograph with surreal, ethereal qualities, soft focus, nostalgic muted tones, and a touch of the uncanny."

/-- POST /api/generate-with-loved-one (lines 154-218) up to the outbound
call: reject missing prompt or lovedOneId with 400, unknown profile with
404, missing API key with 500, and otherwise issue the single upstream
request with the enriched prompt. -/
def generateWithLovedOne (m : List (String × LovedOne)) (apiKey : Option String)
    (prompt lovedOneId : Option String) : GenResult :=
  if !truthy prompt || !truthy lovedOneId then
    .badRequest "Prompt and lovedOneId are required"
  else
    match objGet m (getStr lovedOneId) with
    | none => .notFound
    | some lo =>
        if !truthy apiKey then .noApiKey
        else .callUpstream (enhancedPrompt (getStr prompt) lo)

/-- The styled prompt of POST /api/generate (line 237). -/
def styledPrompt (prompt : String) : String :=
  prompt ++ ", as a vintage dreamlike polaroid photograph with surreal, ethereal qualities, soft focus, nostalgic muted tones, and a touch of the uncanny"

/-- POST /api/generate (lines 221-279) up to the outbound call. -/
def generate (apiKey : Option String) (prompt : Option String) : GenResult :=
  if !truthy prompt then .badRequest "Prompt is required"
  else if !truthy apiKey then .noApiKey
  else .callUpstream (styledPrompt (getStr prompt))

/-- The caller-supplied body of POST /api/ar/session: the `sessionId`
field (possibly absent) plus the remaining fields, kept opaque. -/
structure ARData where
  sessionId : Option String
  payload : List (String × String)
  deriving Repr, DecidableEq

/-- A persisted AR session record: the caller data plus the `savedAt`
timestamp injected at write time (lines 318-321). -/
structure ARRecord where
  data : ARData
  savedAt : String
  deriving Repr, DecidableEq

/-- JS `l.slice(-n)`: the last `min n l.length` elements of `l`. -/
def sliceLast (n : Nat) (l : List α) : List α := l.drop (l.length - n)

/-- What reading the backing JSON file can yield: an I/O error from
`readFileSync`, a JSON parse error, or a parsed document whose `sessions`
field is either absent (falsy) or a list of records. -/
inductive ARFileRead where
  | ioError
  | parseError
  | parsed (sessions : Option (List ARRecord))
  deriving Repr, DecidableEq

/-- `readARSessions` (lines 284-292): every failure — I/O error, parse
error, missing `sessions` field — yields the empty list. -/
def readARSessions : ARFileRead → List ARRecord
  | .ioError => []
  | .parseError => []
  | .parsed none => []
  | .parsed (some s) => s

/-- `writeARSessions` (lines 294-302): returns whether the write
succeeded; the I/O outcome is passed in as `writeFails`. -/
def writeARSessions (writeFails : Bool) : Bool := !writeFails

/-- The pure state change of a successful append (lines 318-324): push
the record with its `savedAt` stamp, then keep only the last 1000. -/
def appendSession (sessions : List ARRecord) (d : ARData) (now : String) : List ARRecord :=
  sliceLast 1000 (sessions ++ [⟨d, now⟩])

/-- Response of POST /api/ar/session. -/
structure ARPostResponse where
  status : Nat
  totalSessions : Option Nat
  deriving Repr, DecidableEq

/-- POST /api/ar/session (lines 305-343).  Returns the response together
with the new file content (`none` when nothing was written).  `fileRead`
is what reading the backing file yields, `writeFails` whether the
write-back fails, `body` the request body (`none` for a falsy body). -/
def postARSession (fileRead : ARFileRead) (writeFails : Bool) (body : Option ARData)
    (now : String) : ARPostResponse × Option (List ARRecord) :=
  match body with
  | none => ({ status := 400, totalSessions := none }, none)
  | some d =>
      if !truthy d.sessionId then ({ status := 400, totalSessions := none }, none)
      else
        let sessions := readARSessions fileRead
        let limited := appendSession sessions d now
        if writeARSessions writeFails then
          ({ status := 200, totalSessions := some limited.length }, some limited)
        else
          ({ status := 500, totalSessions := none }, none)

/-- GET /api/ar/sessions (lines 346-360): returns the stored sequence,
empty on a failed read. -/
def getARSessions (fileRead : ARFileRead) : List ARRecord :=
  readARSessions fileRead

/-- DELETE /api/ar/sessions (lines 363-380): overwrite with the empty
sequence; 500 when the write fails. -/
def clearARSessions (writeFails : Bool) : Nat × Option (List ARRecord) :=
  if writeARSessions writeFails then (200, some []) else (500, none)

/-- A sequence of sequential append operations on the log, each carrying
its caller data and its `savedAt` timestamp. -/
def appendAll (init : List ARRecord) (items : List (ARData × String)) : List ARRecord :=
  items.foldl (fun s it => appendSession s it.1 it.2) init

/-- Substring relation on strings, used to state what the final prompt
contains. -/
def strContains (hay needle : String) : Prop :=
  ∃ pre post : String, hay = pre ++ needle ++ post

/-- Suffix relation on strings. -/
def strEndsWith (hay suffix : String) : Prop :=
  ∃ pre : String, hay = pre ++ suffix

/-! Helper lemmas about the embedded operations. -/

theorem objGet_objSet_self (m : List (String × LovedOne)) (k : String) (v : LovedOne) :
    objGet (objSet m k v) k = some v := by
  simp [objSet, objGet]

theorem objGet_objDelete_ne (m : List (String × LovedOne)) (k x : String) (h : x ≠ k) :
    objGet (objDelete m k) x = objGet m x := by
  induction m with
  | nil => rfl
  | cons e rest ih =>
      obtain ⟨a, b⟩ := e
      by_cases hak : a = k
      · subst hak
        simp [objDelete, objGet, List.filter_cons, h, Ne.symm h] at *
        exact ih
      · by_cases hax : a = x
        · subst hax
          simp [objDelete, objGet, List.filter_cons, hak]
        · simp [objDelete, objGet, List.filter_cons, hak, hax] at *
          exact ih

theorem objGet_objDelete_self (m : List (String × LovedOne)) (k : String) :
    objGet (objDelete m k) k = none := by
  induction m with
  | nil => rfl
  | cons e rest ih =>
      obtain ⟨a, b⟩ := e
      by_cases hak : a = k
      · simpa [objDelete, List.filter_cons, hak] using ih
      · simpa [objDelete, objGet, List.filter_cons, hak] using ih

theorem objGet_objSet_ne (m : List (String × LovedOne)) (k x : String) (v : LovedOne)
    (h : x ≠ k) : objGet (objSet m k v) x = objGet m x := by
  simp [objSet, objGet, Ne.symm h]
  exact objGet_objDelete_ne m k x h

theorem mem_delStep (d : List String) (p q : String) :
    q ∈ (if existsSync d p then unlinkSync d p else d) ↔ q ∈ d ∧ q ≠ p := by
  by_cases hp : existsSync d p
  · simp [hp, unlinkSync, List.mem_filter]
  · have hpd : p ∉ d := by
      simpa [existsSync, List.elem_iff] using hp
    simp only [hp, if_neg]
    constructor
    · intro hq
      exact ⟨hq, fun e => hpd (e ▸ hq)⟩
    · exact fun h => h.1

theorem mem_deletePhotoFiles (disk photos : List String) (q : String) :
    q ∈ deletePhotoFiles disk photos ↔ q ∈ disk ∧ q ∉ photos := by
  induction photos generalizing disk with
  | nil => simp [deletePhotoFiles]
  | cons p ps ih =>
      have hstep : deletePhotoFiles disk (p :: ps)
          = deletePhotoFiles (if existsSync disk p then unlinkSync disk p else disk) ps := rfl
      rw [hstep, ih, mem_delStep]
      simp only [List.mem_cons]
      tauto

theorem deletePhotoFiles_of_disjoint (D ps : List String) (h : ∀ r ∈ ps, r ∉ D) :
    deletePhotoFiles D ps = D := by
  induction ps with
  | nil => rfl
  | cons r rs ih =>
      have hrD : r ∉ D := h r (List.mem_cons_self r rs)
      have hexr : existsSync D r = false := by
        by_contra hc
        have htrue : existsSync D r = true := by
          revert hc
          cases existsSync D r <;> simp
        exact hrD (by simpa [existsSync, List.elem_iff] using htrue)
      have hstep : deletePhotoFiles D (r :: rs)
          = deletePhotoFiles (if existsSync D r then unlinkSync D r else D) rs := rfl
      rw [hstep, hexr]
      simp only [Bool.false_eq_true, if_false]
      exact ih (fun y hy => h y (List.mem_cons_of_mem r hy))

theorem deletePhotoFiles_idem (disk photos : List String) :
    deletePhotoFiles (deletePhotoFiles disk photos) photos = deletePhotoFiles disk photos := by
  apply deletePhotoFiles_of_disjoint
  intro r hr hmem
  rw [mem_deletePhotoFiles] at hmem
  exact hmem.2 hr

theorem sliceLast_length_le (n : Nat) (l : List α) : (sliceLast n l).length ≤ n := by
  simp only [sliceLast, List.length_drop]
  omega

theorem sliceLast_of_length_le (n : Nat) (l : List α) (h : l.length ≤ n) :
    sliceLast n l = l := by
  simp [sliceLast, Nat.sub_eq_zero_of_le h]

theorem sliceLast_append_singleton (n : Nat) (hn : 0 < n) (p : List α) (x : α) :
    sliceLast n (sliceLast n p ++ [x]) = sliceLast n (p ++ [x]) := by
  by_cases h : p.length ≤ n
  · rw [sliceLast_of_length_le n p h]
  · push_neg at h
    have hlen : (p.drop (p.length - n)).length = n := by
      simp only [List.length_drop]
      omega
    show (p.drop (p.length - n) ++ [x]).drop ((p.drop (p.length - n) ++ [x]).length - n)
        = (p ++ [x]).drop ((p ++ [x]).length - n)
    rw [List.length_append, List.length_append, hlen]
    simp only [List.length_cons, List.length_nil]
    have h1 : n + 1 - n = 1 := by omega
    have h2 : p.length + 1 - n = (p.length - n) + 1 := by omega
    rw [h1, h2]
    rw [List.drop_append_of_le_length (by omega : 1 ≤ (p.drop (p.length - n)).length)]
    rw [List.drop_append_of_le_length (by omega : (p.length - n) + 1 ≤ p.length)]
    rw [List.drop_drop]

theorem appendAll_sliceLast (items : List (ARData × String)) (p : List ARRecord) :
    appendAll (sliceLast 1000 p) items
      = sliceLast 1000 (p ++ items.map fun it => ARRecord.mk it.1 it.2) := by
  induction items generalizing p with
  | nil => simp [appendAll]
  | cons it rest ih =>
      have hstep : appendSession (sliceLast 1000 p) it.1 it.2
          = sliceLast 1000 (p ++ [⟨it.1, it.2⟩]) := by
        unfold appendSession
        exact sliceLast_append_singleton 1000 (by omega) p _
      have hfold : appendAll (sliceLast 1000 p) (it :: rest)
          = appendAll (appendSession (sliceLast 1000 p) it.1 it.2) rest := by
        simp only [appendAll, List.foldl_cons]
      rw [hfold, hstep, ih (p ++ [ARRecord.mk it.1 it.2])]
      simp [List.append_assoc]

theorem appendAll_nil_eq (items : List (ARData × String)) :
    appendAll [] items = sliceLast 1000 (items.map fun it => ARRecord.mk it.1 it.2) := by
  have h0 : sliceLast 1000 ([] : List ARRecord) = [] := rfl
  have h := appendAll_sliceLast items []
  rw [h0] at h
  simpa using h

/-! Injectivity of the decimal representation used for profile ids
(JS `Date.now().toString()`, Lean `Nat.repr`). -/

/-- Numeric value of a decimal digit character. -/
def digitVal (c : Char) : Nat := c.toNat - 48

/-- Accumulate the numeric value of a digit string. -/
def digitsVal (acc : Nat) (l : List Char) : Nat :=
  l.foldl (fun a c => 10 * a + digitVal c) acc

theorem digitVal_digitChar (k : Nat) (h : k < 10) :
    digitVal (Nat.digitChar k) = k := by
  interval_cases k <;> decide

theorem toDigitsCore_digitsVal (fuel : Nat) :
    ∀ n : Nat, n < 10 ^ fuel → ∀ ds : List Char,
      digitsVal 0 (Nat.toDigitsCore 10 fuel n ds) = digitsVal n ds := by
  induction fuel with
  | zero =>
      intro n hn ds
      interval_cases n
      rfl
  | succ fuel ih =>
      intro n hn ds
      have hd : digitVal (Nat.digitChar (n % 10)) = n % 10 :=
        digitVal_digitChar _ (Nat.mod_lt n (by omega))
      by_cases hz : n / 10 = 0
      · have hn10 : n < 10 := by omega
        have hrw : Nat.toDigitsCore 10 (fuel + 1) n ds = Nat.digitChar (n % 10) :: ds := by
          rw [Nat.toDigitsCore]
          simp [hz]
        rw [hrw]
        show digitsVal (10 * 0 + digitVal (Nat.digitChar (n % 10))) ds = digitsVal n ds
        rw [hd, Nat.mod_eq_of_lt hn10]
        simp
      · have hrw : Nat.toDigitsCore 10 (fuel + 1) n ds
            = Nat.toDigitsCore 10 fuel (n / 10) (Nat.digitChar (n % 10) :: ds) := by
          rw [Nat.toDigitsCore]
          simp [hz]
        have hlt : n / 10 < 10 ^ fuel := by
          rw [Nat.div_lt_iff_lt_mul (by omega : 0 < 10)]
          calc n < 10 ^ (fuel + 1) := hn
            _ = 10 ^ fuel * 10 := by rw [Nat.pow_succ]
        rw [hrw, ih (n / 10) hlt (Nat.digitChar (n % 10) :: ds)]
        show digitsVal (10 * (n / 10) + digitVal (Nat.digitChar (n % 10))) ds = digitsVal n ds
        rw [hd]
        have : 10 * (n / 10) + n % 10 = n := by omega
        rw [this]

theorem lt_ten_pow_succ (n : Nat) : n < 10 ^ (n + 1) :=
  calc n < 2 ^ n := Nat.lt_two_pow n
    _ ≤ 2 ^ (n + 1) := Nat.pow_le_pow_right (by omega) (Nat.le_succ n)
    _ ≤ 10 ^ (n + 1) := Nat.pow_le_pow_left (by omega) (n + 1)

theorem digitsVal_repr (n : Nat) : digitsVal 0 (Nat.repr n).data = n := by
  have h := toDigitsCore_digitsVal (n + 1) n (lt_ten_pow_succ n) []
  simpa [Nat.repr, Nat.toDigits, List.asString, digitsVal] using h

theorem natRepr_injective (m n : Nat) (h : Nat.repr m = Nat.repr n) : m = n := by
  have hd : (Nat.repr m).data = (Nat.repr n).data := by rw [h]
  calc m = digitsVal 0 (Nat.repr m).data := (digitsVal_repr m).symm
    _ = digitsVal 0 (Nat.repr n).data := by rw [hd]
    _ = n := digitsVal_repr n

theorem toString_nat_injective (m n : Nat) (h : toString m = toString n) : m = n :=
  natRepr_injective m n h

/-! Claim theorems. -/

/-- Claim C1: starting from the initialized empty document, any sequence of
sequential appends to the AR Session Log leaves at most 1000 records, the
persisted sequence is always exactly the most recent (at most) 1000 appended
records in order (oldest dropped first), and after 1005 appends exactly the
most recent 1000 remain, the oldest 5 evicted. -/
theorem ar_log_bounded_fifo (items : List (ARData × String)) :
    (appendAll [] items).length ≤ 1000 ∧
    appendAll [] items = sliceLast 1000 (items.map fun it => ARRecord.mk it.1 it.2) ∧
    (items.length = 1005 →
      appendAll [] items = (items.map fun it => ARRecord.mk it.1 it.2).drop 5) := by
  refine ⟨?_, appendAll_nil_eq items, ?_⟩
  · rw [appendAll_nil_eq]
    exact sliceLast_length_le _ _
  · intro h1005
    rw [appendAll_nil_eq]
    unfold sliceLast
    rw [List.length_map, h1005]

/-- Concrete run for C1: 1005 sequential appends leave the most recent 1000. -/
def arWitnessItems : List (ARData × String) :=
  (List.range 1005).map fun i => (⟨some (toString i), []⟩, "2026-01-01T00:00:00.000Z")

theorem ar_log_bounded_fifo_witness :
    arWitnessItems.length = 1005 ∧
    (appendAll [] arWitnessItems).length ≤ 1000 ∧
    appendAll [] arWitnessItems
      = (arWitnessItems.map fun it => ARRecord.mk it.1 it.2).drop 5 :=
  ⟨by simp [arWitnessItems], (ar_log_bounded_fifo arWitnessItems).1,
    (ar_log_bounded_fifo arWitnessItems).2.2 (by simp [arWitnessItems])⟩

/-- Claim C2: deleting a stored profile removes every photo file it references
from disk (files already missing are silently skipped, and repeating the file
deletion changes nothing), then removes the record, so a subsequent get on the
id yields 404; deleting an unknown id yields 404 and changes nothing. -/
theorem delete_profile_spec (st : ProfState) (id : String) :
    (objGet st.lovedOnes id = none →
      deleteLovedOne st id = (.notFound, st) ∧
      deleteStatus (deleteLovedOne st id).1 = 404) ∧
    (∀ lo, objGet st.lovedOnes id = some lo →
      (deleteLovedOne st id).1 = .deleted ∧
      (∀ p ∈ lo.photos, p ∉ (deleteLovedOne st id).2.disk) ∧
      deletePhotoFiles (deletePhotoFiles st.disk lo.photos) lo.photos
        = deletePhotoFiles st.disk lo.photos ∧
      objGet (deleteLovedOne st id).2.lovedOnes id = none ∧
      getLovedOneStatus (deleteLovedOne st id).2 id = 404) := by
  constructor
  · intro hnone
    simp [deleteLovedOne, hnone, deleteStatus]
  · intro lo hsome
    have hred : deleteLovedOne st id
        = (.deleted, { lovedOnes := objDelete st.lovedOnes id,
                       disk := deletePhotoFiles st.disk lo.photos }) := by
      simp [deleteLovedOne, hsome]
    rw [hred]
    refine ⟨rfl, ?_, deletePhotoFiles_idem _ _, ?_, ?_⟩
    · intro p hp
      rw [mem_deletePhotoFiles]
      intro hc
      exact hc.2 hp
    · exact objGet_objDelete_self _ _
    · simp [getLovedOneStatus, objGet_objDelete_self]

/-- Concrete profile for the C2 witness; one referenced file is already
missing from disk. -/
def wLo : LovedOne :=
  { id := "100", name := "A", description := "d", relationship := ""
    photos := ["/uploads/a.png", "/uploads/c.png"], createdAt := "T" }

def wSt : ProfState :=
  { lovedOnes := [("100", wLo)], disk := ["/uploads/a.png", "/uploads/b.png"] }

theorem delete_profile_spec_witness :
    objGet wSt.lovedOnes "100" = some wLo ∧
    (deleteLovedOne wSt "100").1 = .deleted ∧
    (∀ p ∈ wLo.photos, p ∉ (deleteLovedOne wSt "100").2.disk) ∧
    objGet (deleteLovedOne wSt "100").2.lovedOnes "100" = none ∧
    getLovedOneStatus (deleteLovedOne wSt "100").2 "100" = 404 :=
  have h := (delete_profile_spec wSt "100").2 wLo (by decide)
  ⟨by decide, h.1, h.2.1, h.2.2.2.1, h.2.2.2.2⟩

/-- Claim C3: creating a profile with a missing name or description, or with
no photos, fails with a 400 validation error and stores no record in the map;
a valid create stores a fresh record under the generated id and returns it. -/
theorem create_profile_spec (st : ProfState) (req : CreateReq) (nowMs : Nat) (nowISO : String) :
    ((req.name = none ∨ req.description = none ∨ req.files = []) →
      createStatus (postLovedOnes st req nowMs nowISO).1 = 400 ∧
      (∃ msg, (postLovedOnes st req nowMs nowISO).1 = .validationError msg) ∧
      (postLovedOnes st req nowMs nowISO).2.lovedOnes = st.lovedOnes) ∧
    (truthy req.name = true → truthy req.description = true → req.files ≠ [] →
      ∃ lo, (postLovedOnes st req nowMs nowISO).1 = .created lo ∧
        lo.id = toString nowMs ∧
        objGet (postLovedOnes st req nowMs nowISO).2.lovedOnes lo.id = some lo) := by
  constructor
  · intro hbad
    by_cases h1 : (!truthy req.name || !truthy req.description) = true
    · simp [postLovedOnes, h1, createStatus]
    · have hfiles : req.files = [] := by
        rcases hbad with h | h | h
        · exact absurd (by simp [h, truthy]) h1
        · exact absurd (by simp [h, truthy]) h1
        · exact h
      have h1f : (!truthy req.name || !truthy req.description) = false := by
        revert h1
        cases (!truthy req.name || !truthy req.description) <;> simp
      simp [postLovedOnes, h1f, hfiles, createStatus]
  · intro hn hd hf
    have h1 : (!truthy req.name || !truthy req.description) = false := by
      simp [hn, hd]
    have h2 : req.files.isEmpty = false := by
      simpa [List.isEmpty_iff] using hf
    refine ⟨{ id := toString nowMs, name := getStr req.name
              description := getStr req.description
              relationship := getStr req.relationship
              photos := req.files.map photoPath, createdAt := nowISO }, ?_, rfl, ?_⟩
    · simp [postLovedOnes, h1, h2]
    · simp only [postLovedOnes, h1, h2]
      simp only [Bool.false_eq_true, if_false]
      exact objGet_objSet_self _ _ _

/-- Concrete requests for the C3 witness. -/
def wReqBad : CreateReq :=
  { name := none, description := some "desc", relationship := none, files := ["a.png"] }

def wReqGood : CreateReq :=
  { name := some "Mom", description := some "warm smile", relationship := none
    files := ["b.png"] }

theorem create_profile_spec_witness :
    (createStatus (postLovedOnes wSt wReqBad 7 "T").1 = 400 ∧
      (∃ msg, (postLovedOnes wSt wReqBad 7 "T").1 = .validationError msg) ∧
      (postLovedOnes wSt wReqBad 7 "T").2.lovedOnes = wSt.lovedOnes) ∧
    (∃ lo, (postLovedOnes wSt wReqGood 7 "T").1 = .created lo ∧
      lo.id = toString 7 ∧
      objGet (postLovedOnes wSt wReqGood 7 "T").2.lovedOnes lo.id = some lo) :=
  ⟨(create_profile_spec wSt wReqBad 7 "T").1 (Or.inl rfl),
    (create_profile_spec wSt wReqGood 7 "T").2 (by decide) (by decide) (by decide)⟩

/-- Empty initial server state. -/
def emptySt : ProfState := { lovedOnes := [], disk := [] }

/-- Request exhibiting the C4 counterexample: a photo is attached but the
name field is missing. -/
def c4Req : CreateReq :=
  { name := none, description := some "warm smile", relationship := none
    files := ["ph.png"] }

/-- Counterexample to claim C4: this create request fails validation with a
400, yet by the time the error is returned the uploaded photo file has been
written to disk, because the multer middleware stores uploads before the
handler validates. -/
theorem create_validation_side_effect_cex :
    createStatus (postLovedOnes emptySt c4Req 5 "T").1 = 400 ∧
    (postLovedOnes emptySt c4Req 5 "T").2.disk = ["/uploads/ph.png"] :=
  ⟨rfl, rfl⟩

/-- The disk after POST /api/loved-ones always holds the uploaded files,
whatever the handler decides. -/
theorem postLovedOnes_disk (st : ProfState) (req : CreateReq) (nowMs : Nat) (nowISO : String) :
    (postLovedOnes st req nowMs nowISO).2.disk = st.disk ++ req.files.map photoPath := by
  unfold postLovedOnes
  cases hb : (!truthy req.name || !truthy req.description)
  · cases hf : req.files.isEmpty <;> simp [hb, hf]
  · simp [hb]

/-- Claim C4 (amended): when a profile-creation request fails validation, the
400 response stores no record in the map, but the uploaded photo files have
already been written to disk by the upload middleware before validation runs,
and they remain there. -/
theorem create_validation_no_record_files_written (st : ProfState) (req : CreateReq)
    (nowMs : Nat) (nowISO : String)
    (hbad : req.name = none ∨ req.description = none ∨ req.files = []) :
    createStatus (postLovedOnes st req nowMs nowISO).1 = 400 ∧
    (postLovedOnes st req nowMs nowISO).2.lovedOnes = st.lovedOnes ∧
    (postLovedOnes st req nowMs nowISO).2.disk = st.disk ++ req.files.map photoPath := by
  have h := (create_profile_spec st req nowMs nowISO).1 hbad
  exact ⟨h.1, h.2.2, postLovedOnes_disk st req nowMs nowISO⟩

theorem create_validation_no_record_files_written_witness :
    createStatus (postLovedOnes emptySt c4Req 6 "T").1 = 400 ∧
    (postLovedOnes emptySt c4Req 6 "T").2.lovedOnes = emptySt.lovedOnes ∧
    (postLovedOnes emptySt c4Req 6 "T").2.disk = emptySt.disk ++ c4Req.files.map photoPath :=
  create_validation_no_record_files_written emptySt c4Req 6 "T" (Or.inl rfl)

/-- Requests for the C5 counterexample: two valid creates arriving in the
same millisecond. -/
def c5ReqA : CreateReq :=
  { name := some "Alice", description := some "first", relationship := none
    files := ["a.png"] }

def c5ReqB : CreateReq :=
  { name := some "Bob", description := some "second", relationship := none
    files := ["b.png"] }

def c5St1 : ProfState := (postLovedOnes emptySt c5ReqA 5 "T1").2

def c5St2 : ProfState := (postLovedOnes c5St1 c5ReqB 5 "T2").2

/-- Counterexample to claim C5: two successful creates in the same
millisecond both generate the id "5", and the second create overwrites the
first record — afterwards only the second record is stored. -/
theorem create_id_collision_cex :
    (postLovedOnes emptySt c5ReqA 5 "T1").1 = .created
      { id := "5", name := "Alice", description := "first", relationship := ""
        photos := ["/uploads/a.png"], createdAt := "T1" } ∧
    (postLovedOnes c5St1 c5ReqB 5 "T2").1 = .created
      { id := "5", name := "Bob", description := "second", relationship := ""
        photos := ["/uploads/b.png"], createdAt := "T2" } ∧
    objGet c5St2.lovedOnes "5" = some
      { id := "5", name := "Bob", description := "second", relationship := ""
        photos := ["/uploads/b.png"], createdAt := "T2" } ∧
    c5St2.lovedOnes.length = 1 :=
  ⟨rfl, rfl, rfl, rfl⟩

/-- Claim C5 (amended): creates whose creation timestamps differ generate
distinct ids, and a create at a different timestamp leaves the binding for
the other id untouched, so it never overwrites that record. -/
theorem create_ids_distinct_timestamps (st : ProfState) (req : CreateReq)
    (t1 t2 : Nat) (nowISO : String) (h : t1 ≠ t2) :
    toString t1 ≠ toString t2 ∧
    objGet (postLovedOnes st req t2 nowISO).2.lovedOnes (toString t1)
      = objGet st.lovedOnes (toString t1) := by
  have hs : toString t1 ≠ toString t2 := fun he => h (toString_nat_injective t1 t2 he)
  refine ⟨hs, ?_⟩
  unfold postLovedOnes
  cases hb : (!truthy req.name || !truthy req.description)
  · cases hf : req.files.isEmpty
    · simp only [hb, Bool.false_eq_true, if_false, hf]
      exact objGet_objSet_ne _ _ _ _ hs
    · simp [hb, hf]
  · simp [hb]

theorem create_ids_distinct_timestamps_witness :
    toString 5 ≠ toString 6 ∧
    objGet (postLovedOnes c5St1 c5ReqB 6 "T2").2.lovedOnes (toString 5)
      = objGet c5St1.lovedOnes (toString 5) :=
  create_ids_distinct_timestamps c5St1 c5ReqB 5 6 "T2" (by decide)

/-- Counterexample to claim C6: with no API key configured, a generate
request with a missing prompt fails with the 400 validation error, not with
the 500 configuration error. -/
theorem generate_no_key_cex :
    generate none none = .badRequest "Prompt is required" ∧
    genStatus (generate none none) = some 400 ∧
    outboundCalls (generate none none) = 0 :=
  ⟨rfl, rfl, rfl⟩

/-- Claim C6 (amended): with no credential configured neither endpoint ever
issues an outbound call; if the request also passes the earlier input checks
— a non-empty prompt, and for generate-with-loved-one a lovedOneId resolving
to a stored profile — the failure is the 500 configuration error. -/
theorem no_key_no_outbound (m : List (String × LovedOne))
    (key prompt lovedOneId : Option String) (hkey : truthy key = false) :
    outboundCalls (generate key prompt) = 0 ∧
    outboundCalls (generateWithLovedOne m key prompt lovedOneId) = 0 ∧
    (truthy prompt = true →
      generate key prompt = .noApiKey ∧ genStatus (generate key prompt) = some 500) ∧
    (truthy prompt = true → truthy lovedOneId = true →
      ∀ lo, objGet m (getStr lovedOneId) = some lo →
        generateWithLovedOne m key prompt lovedOneId = .noApiKey ∧
        genStatus (generateWithLovedOne m key prompt lovedOneId) = some 500) := by
  refine ⟨?_, ?_, ?_, ?_⟩
  · unfold generate
    cases hp : truthy prompt
    · simp [hp, outboundCalls]
    · simp [hp, hkey, outboundCalls]
  · unfold generateWithLovedOne
    cases hp : truthy prompt
    · simp [hp, outboundCalls]
    · cases hl : truthy lovedOneId
      · simp [hp, hl, outboundCalls]
      · cases hm : objGet m (getStr lovedOneId)
        · simp [hp, hl, hm, outboundCalls]
        · simp [hp, hl, hm, hkey, outboundCalls]
  · intro hp
    unfold generate
    simp [hp, hkey, genStatus]
  · intro hp hl lo hm
    unfold generateWithLovedOne
    simp [hp, hl, hm, hkey, genStatus]

def c6Profile : LovedOne :=
  { id := "1", name := "Mom", description := "warm smile", relationship := ""
    photos := ["/uploads/a.png"], createdAt := "T" }

theorem no_key_no_outbound_witness :
    outboundCalls (generate none (some "beach day")) = 0 ∧
    outboundCalls (generateWithLovedOne [("1", c6Profile)] none (some "beach day") (some "1")) = 0 ∧
    generate none (some "beach day") = .noApiKey ∧
    generateWithLovedOne [("1", c6Profile)] none (some "beach day") (some "1") = .noApiKey :=
  have h := no_key_no_outbound [("1", c6Profile)] none (some "beach day") (some "1") (by decide)
  ⟨h.1, h.2.1, (h.2.2.1 (by decide)).1, (h.2.2.2 (by decide) (by decide) c6Profile (by decide)).1⟩

/-- Counterexample to claim C7: the store is empty, so the supplied
lovedOneId "999" does not resolve to any stored profile, yet the response is
the 400 for the missing prompt, not a 404. -/
theorem gen_wlo_unresolved_cex :
    objGet [] "999" = none ∧
    generateWithLovedOne [] (some "key") none (some "999")
      = .badRequest "Prompt and lovedOneId are required" ∧
    genStatus (generateWithLovedOne [] (some "key") none (some "999")) = some 400 :=
  ⟨rfl, rfl, rfl⟩

/-- Claim C7 (amended): whenever the supplied lovedOneId does not resolve to
a stored profile, no outbound call is issued; if the request also carries a
non-empty prompt and a non-empty lovedOneId, the failure is the 404
not-found error. -/
theorem gen_wlo_not_found (m : List (String × LovedOne))
    (key prompt lovedOneId : Option String)
    (hna : objGet m (getStr lovedOneId) = none) :
    outboundCalls (generateWithLovedOne m key prompt lovedOneId) = 0 ∧
    (truthy prompt = true → truthy lovedOneId = true →
      generateWithLovedOne m key prompt lovedOneId = .notFound ∧
      genStatus (generateWithLovedOne m key prompt lovedOneId) = some 404) := by
  constructor
  · unfold generateWithLovedOne
    cases hp : truthy prompt
    · simp [hp, outboundCalls]
    · cases hl : truthy lovedOneId
      · simp [hp, hl, outboundCalls]
      · simp [hp, hl, hna, outboundCalls]
  · intro hp hl
    unfold generateWithLovedOne
    simp [hp, hl, hna, genStatus]

theorem gen_wlo_not_found_witness :
    outboundCalls (generateWithLovedOne [] (some "key") (some "beach day") (some "999")) = 0 ∧
    generateWithLovedOne [] (some "key") (some "beach day") (some "999") = .notFound ∧
    genStatus (generateWithLovedOne [] (some "key") (some "beach day") (some "999")) = some 404 :=
  have h := gen_wlo_not_found [] (some "key") (some "beach day") (some "999") (by decide)
  ⟨h.1, (h.2 (by decide) (by decide)).1, (h.2 (by decide) (by decide)).2⟩

/-- Claim C8: the final prompt built for generate-with-loved-one contains the
name of the profile, contains its description, contains the relationship
sentence whenever the relationship is non-empty, and always ends with the
fixed stylistic suffix. -/
theorem enhanced_prompt_contains (prompt : String) (lo : LovedOne) :
    strContains (enhancedPrompt prompt lo) lo.name ∧
    strContains (enhancedPrompt prompt lo) lo.description ∧
    (lo.relationship ≠ "" →
      strContains (enhancedPrompt prompt lo) ("They were my " ++ lo.relationship ++ ".")) ∧
    strEndsWith (enhancedPrompt prompt lo) fixedSuffix := by
  refine ⟨?_, ?_, ?_, ?_⟩
  · refine ⟨prompt ++ ". The scene includes ",
      ", " ++ lo.description ++ ". " ++
        (if lo.relationship ≠ "" then "They were my " ++ lo.relationship ++ "." else "") ++
        " Create this as a vintage dreamlike polaroid photograph with surreal, ethereal qualities, soft focus, nostalgic muted tones, and a touch of the uncanny.", ?_⟩
    rw [enhancedPrompt]
    simp only [String.append_assoc]
  · refine ⟨prompt ++ ". The scene includes " ++ lo.name ++ ", ",
      ". " ++
        (if lo.relationship ≠ "" then "They were my " ++ lo.relationship ++ "." else "") ++
        " Create this as a vintage dreamlike polaroid photograph with surreal, ethereal qualities, soft focus, nostalgic muted tones, and a touch of the uncanny.", ?_⟩
    rw [enhancedPrompt]
    simp only [String.append_assoc]
  · intro hrel
    refine ⟨prompt ++ ". The scene includes " ++ lo.name ++ ", " ++ lo.description ++ ". ",
      " Create this as a vintage dreamlike polaroid photograph with surreal, ethereal qualities, soft focus, nostalgic muted tones, and a touch of the uncanny.", ?_⟩
    rw [enhancedPrompt, if_pos hrel]
  · refine ⟨prompt ++ ". The scene includes " ++ lo.name ++ ", " ++ lo.description ++ ". " ++
      (if lo.relationship ≠ "" then "They were my " ++ lo.relationship ++ "." else "") ++
      " Create this as a ", ?_⟩
    rw [enhancedPrompt]
    simp only [String.append_assoc]
    rfl

/-- Concrete profile for the C8 witness. -/
def momLo : LovedOne :=
  { id := "X", name := "Mom", description := "warm smile", relationship := "mother"
    photos := ["/uploads/img.png"], createdAt := "T" }

theorem enhanced_prompt_contains_witness :
    strContains (enhancedPrompt "beach day" momLo) "Mom" ∧
    strContains (enhancedPrompt "beach day" momLo) "warm smile" ∧
    strContains (enhancedPrompt "beach day" momLo) ("They were my " ++ "mother" ++ ".") ∧
    strEndsWith (enhancedPrompt "beach day" momLo) fixedSuffix :=
  have h := enhanced_prompt_contains "beach day" momLo
  ⟨h.1, h.2.1, h.2.2.1 (by decide), h.2.2.2⟩

/-- Claim C9: every failure while reading the backing document — here an I/O
error — yields the empty sequence instead of an error, so the list endpoint
reports an empty list and an append proceeds from the empty sequence, while
an I/O failure on write makes the append report a 500 failure and persists
nothing. -/
theorem ar_io_failure_semantics (fileRead : ARFileRead) (d : ARData) (now : String)
    (hval : truthy d.sessionId = true) :
    readARSessions .ioError = [] ∧
    getARSessions .ioError = [] ∧
    (postARSession .ioError false (some d) now).1.status = 200 ∧
    (postARSession .ioError false (some d) now).2 = some [⟨d, now⟩] ∧
    (postARSession fileRead true (some d) now).1.status = 500 ∧
    (postARSession fileRead true (some d) now).2 = none ∧
    (clearARSessions true).1 = 500 := by
  refine ⟨rfl, rfl, ?_, ?_, ?_, ?_, rfl⟩ <;>
    simp [postARSession, hval, appendSession, sliceLast, readARSessions, writeARSessions]

def c9Data : ARData := { sessionId := some "s1", payload := [("scene", "garden")] }

theorem ar_io_failure_semantics_witness :
    readARSessions .ioError = [] ∧
    (postARSession .ioError false (some c9Data) "T").1.status = 200 ∧
    (postARSession (.parsed (some [⟨c9Data, "T0"⟩])) true (some c9Data) "T").1.status = 500 :=
  have h := ar_io_failure_semantics (.parsed (some [⟨c9Data, "T0"⟩])) c9Data "T" (by decide)
  ⟨h.1, h.2.2.1, h.2.2.2.2.1⟩

/-- Claim C10: a successful delete of one profile leaves the stored record of
every other profile — its photo list included — unchanged, and removes no
file referenced by the other profile as long as that file is not also
referenced by the deleted profile. -/
theorem delete_frame (st : ProfState) (d x : String) (hne : x ≠ d)
    (lod lox : LovedOne)
    (hd : objGet st.lovedOnes d = some lod)
    (hx : objGet st.lovedOnes x = some lox) :
    (deleteLovedOne st d).1 = .deleted ∧
    objGet (deleteLovedOne st d).2.lovedOnes x = some lox ∧
    (∀ f ∈ lox.photos, f ∉ lod.photos → f ∈ st.disk → f ∈ (deleteLovedOne st d).2.disk) := by
  have hred : deleteLovedOne st d
      = (.deleted, { lovedOnes := objDelete st.lovedOnes d,
                     disk := deletePhotoFiles st.disk lod.photos }) := by
    simp [deleteLovedOne, hd]
  rw [hred]
  refine ⟨rfl, ?_, ?_⟩
  · exact (objGet_objDelete_ne st.lovedOnes d x hne).trans hx
  · intro f _ hnotd hdisk
    rw [mem_deletePhotoFiles]
    exact ⟨hdisk, hnotd⟩

/-- Concrete two-profile state for the C10 witness. -/
def w10LoD : LovedOne :=
  { id := "1", name := "D", description := "dd", relationship := ""
    photos := ["/uploads/d.png"], createdAt := "T" }

def w10LoX : LovedOne :=
  { id := "2", name := "X", description := "xx", relationship := ""
    photos := ["/uploads/x.png"], createdAt := "T" }

def w10St : ProfState :=
  { lovedOnes := [("1", w10LoD), ("2", w10LoX)]
    disk := ["/uploads/d.png", "/uploads/x.png"] }

theorem delete_frame_witness :
    (deleteLovedOne w10St "1").1 = .deleted ∧
    objGet (deleteLovedOne w10St "1").2.lovedOnes "2" = some w10LoX ∧
    (∀ f ∈ w10LoX.photos, f ∉ w10LoD.photos → f ∈ w10St.disk →
      f ∈ (deleteLovedOne w10St "1").2.disk) :=
  delete_frame w10St "1" "2" (by decide) w10LoD w10LoX (by decide) (by decide)

end MemGen
